import Mathlib

/-!
Shallow embedding of the WebSocketHandler server class of the
Monitor_Framework repository (source file src/unnamed/part_001).

Modelling conventions:
JS Maps become association lists, JS Sets become duplicate-free lists,
socket objects (ws) become natural-number handles, wall-clock instants
become naturals, and the side effects of a handler (messages sent,
sockets closed, database inserts, events emitted, ping frames) are
collected in an effect list returned next to the successor state.
Promises created by the outbound request engine are tracked in a ledger
mapping request ids to a settlement status; the JS rule that settling an
already-settled promise is a no-op is modelled by settleOne.  Active
setTimeout handles for pending requests are modelled by the timers list.
The readyState of each socket is transport state, modelled by the
openSockets list.
-/

namespace WSHandler

/-- Values of the loosely typed JSON fields carried in an ingest payload:
null, a string, or a number. A field that is absent from the record models
the JS value undefined. -/
inductive FieldVal where
  | vNull : FieldVal
  | vStr : String → FieldVal
  | vNum : Int → FieldVal
  deriving Repr, DecidableEq

/-- JS String(value) coercion as used by _validateSensorData and the
encryption loop of _saveToDatabase. -/
def fieldToString : FieldVal → String
  | FieldVal.vNull => "null"
  | FieldVal.vStr s => s
  | FieldVal.vNum n => toString n

/-- Lookup in an association list modelling a JS Map: the first entry with
the given key wins (a real Map has unique keys). -/
def alookup {α β : Type} [DecidableEq α] (k : α) : List (α × β) → Option β
  | [] => none
  | (k', v) :: rest => if k' = k then some v else alookup k rest

/-- Map.set: replace the entry with the given key in place, or append a new
entry when the key is absent. -/
def setKey {α β : Type} [DecidableEq α] (k : α) (v : β) : List (α × β) → List (α × β)
  | [] => [(k, v)]
  | (k', v') :: rest => if k' = k then (k, v) :: rest else (k', v') :: setKey k v rest

/-- Map.delete: drop every entry with the given key (at most one exists in
a list with unique keys). -/
def eraseKey {α β : Type} [DecidableEq α] (k : α) : List (α × β) → List (α × β)
  | [] => []
  | (k', v') :: rest => if k' = k then eraseKey k rest else (k', v') :: eraseKey k rest

/-- Set.delete on a list used with set semantics: remove every occurrence. -/
def removeAll {α : Type} [DecidableEq α] (x : α) (xs : List α) : List α :=
  xs.filter (fun y => decide (¬ y = x))

/-- Set.add on a list used with set semantics: append unless present. -/
def addOnce {α : Type} [DecidableEq α] (x : α) (xs : List α) : List α :=
  if x ∈ xs then xs else xs ++ [x]

/-- The server configuration object built in the constructor; immutable
after start. dbTableName is an Option so that none models a falsy table
name, and hasDb models whether a db instance was passed to the
constructor. -/
structure Config where
  enableAuthentication : Bool
  authToken : String
  dbTableName : Option String
  hasDb : Bool
  dbHasEncrypt : Bool
  requiredFields : List String
  fieldsToEncrypt : List String
  enableHeartbeat : Bool
  heartbeatInterval : Nat
  maxConnections : Nat
  enableDataValidation : Bool
  enableRequestResponse : Bool
  enablePubSub : Bool
  enableRPC : Bool
  enableStreaming : Bool
  requestTimeout : Nat
  clientTypes : List String
  deriving Repr, DecidableEq

/-- The per-connection clientData record stored in this.clients. -/
structure ClientData where
  id : String
  ip : String
  connectedAt : Nat
  lastHeartbeat : Nat
  isAuthenticated : Bool
  dataReceived : Nat
  lastDataTime : Option Nat
  clientType : String
  subscriptions : List String
  capabilities : List String
  deriving Repr, DecidableEq

/-- A stream session stored in this.streams. -/
structure StreamSession where
  clientId : String
  ws : Nat
  streamType : String
  startedAt : Nat
  deriving Repr, DecidableEq

/-- Settlement status of a promise created by the outbound request engine.
JS promises settle at most once; the code never rejects a pending future
during shutdown, so there is no shutdown-rejection status to model. -/
inductive PromiseStatus where
  | unresolved : PromiseStatus
  | resolvedOk : PromiseStatus
  | rejectedError : PromiseStatus
  | rejectedTimeout : PromiseStatus
  deriving Repr, DecidableEq

/-- The mutable state of a WebSocketHandler instance.  pendingRequests
lists the request ids present in this.pendingRequests; timers lists the
request ids whose setTimeout handle is still scheduled; promises is the
ledger of every promise the engine created. -/
structure ServerState where
  isRunning : Bool
  connectionCount : Int
  clients : List (Nat × ClientData)
  openSockets : List Nat
  pendingRequests : List String
  timers : List String
  subscriptions : List (String × List Nat)
  streams : List (String × StreamSession)
  promises : List (String × PromiseStatus)
  rpcMethods : List String
  deriving Repr, DecidableEq

/-- Outbound messages built by the handlers (only the fields the claims
depend on are modelled). -/
inductive OutMsg where
  | welcome (clientId : String)
  | errorMsg (text : String)
  | handshakeResponse (clientId : String)
  | authResponse (success : Bool) (text : String)
  | dataResponse (success : Bool) (text : Option String) (requestId : Option String)
  | subscribeResponse (topic : String)
  | unsubscribeResponse (topic : String)
  | publishResponse (topic : String)
  | publishMsg (topic : String) (payload : List (String × FieldVal))
  | rpcResponse (requestId : Option String) (success : Bool)
  | streamStartResponse (streamId : String)
  | streamEndResponse (streamId : String)
  | streamDataMsg (streamId : String) (seq : Option Nat)
  | heartbeatResponse
  | pongMsg
  | requestMsg (requestId : String) (endpoint : String)
  deriving Repr, DecidableEq

/-- Observable side effects of a handler invocation. -/
inductive Effect where
  | send (ws : Nat) (msg : OutMsg)
  | closeSocket (ws : Nat) (code : Nat) (reason : String)
  | dbInsert (table : String) (record : List (String × FieldVal))
  | serverClose
  | wsPing (ws : Nat)
  | rpcInvoke (method : String)
  | emitEvent (name : String)
  deriving Repr, DecidableEq

/-- Parsed inbound messages, one constructor per message.type handled by
_handleClientMessage. -/
inductive ClientMessage where
  | handshake (clientType : Option String) (capabilities : List String)
  | auth (token : String)
  | sensorData (data : List (String × FieldVal)) (requestId : Option String)
  | dataMsg (data : List (String × FieldVal)) (dataType : Option String)
      (requestId : Option String)
  | request (requestId : String) (endpoint : String)
  | response (requestId : String) (success : Bool) (error : Option String)
  | subscribe (topic : String)
  | unsubscribe (topic : String)
  | publishM (topic : String) (payload : List (String × FieldVal))
  | rpcCall (requestId : Option String) (method : String)
  | streamStart (streamId : String) (streamType : String)
  | streamData (streamId : String) (seq : Option Nat)
  | streamEnd (streamId : String)
  | heartbeat
  | ping
  deriving Repr, DecidableEq

/-- Write back the (JS-mutated) clientData object for a socket.  In the
source the handlers mutate the object held in this.clients in place, so
the write-back only affects a socket that is still registered; mutating a
detached object after removal does not re-insert it. -/
def updateClient (st : ServerState) (ws : Nat) (cd : ClientData) : ServerState :=
  { st with clients := st.clients.map (fun p => if p.1 = ws then (ws, cd) else p) }

/-- The subscriber set of a topic (empty when the topic has no entry). -/
def subscribersOf (st : ServerState) (topic : String) : List Nat :=
  (alookup topic st.subscriptions).getD []

/-- _handleHandshake (part_001 lines 396-421). -/
def handleHandshake (cfg : Config) (st : ServerState) (ws : Nat) (cd : ClientData)
    (clientType : Option String) (capabilities : List String) : ServerState × List Effect :=
  let cd1 :=
    match clientType with
    | some t => if t ∈ cfg.clientTypes then { cd with clientType := t } else cd
    | none => cd
  let cd2 :=
    { cd1 with capabilities := capabilities.foldl (fun acc c => addOnce c acc) cd1.capabilities }
  (updateClient st ws cd2,
   [Effect.send ws (OutMsg.handshakeResponse cd.id), Effect.emitEvent "client-handshake"])

/-- _handleAuthentication (part_001 lines 424-469).  A failed token match
answers with a failure acknowledgment and schedules a delayed forced
closure (the setTimeout body), modelled as a closeSocket effect. -/
def handleAuthentication (cfg : Config) (st : ServerState) (ws : Nat) (cd : ClientData)
    (token : String) : ServerState × List Effect :=
  if cfg.enableAuthentication = false then
    (st, [Effect.send ws (OutMsg.authResponse true "Authentication not required")])
  else if token = cfg.authToken then
    (updateClient st ws { cd with isAuthenticated := true },
     [Effect.send ws (OutMsg.authResponse true "Authentication successful"),
      Effect.emitEvent "client-authenticated"])
  else
    (st, [Effect.send ws (OutMsg.authResponse false "Invalid authentication token"),
          Effect.closeSocket ws 1008 "Authentication failed"])

/-- One required-field check of _validateSensorData: the field must be
present, non-null, and non-empty after String(...) coercion and trim. -/
def requiredFieldOk (data : List (String × FieldVal)) (f : String) : Bool :=
  match alookup f data with
  | none => false
  | some FieldVal.vNull => false
  | some v => decide (¬ (fieldToString v).trim = "")

/-- _validateSensorData (part_001 lines 1033-1047). -/
def validateSensorData (cfg : Config) (data : List (String × FieldVal)) : Bool :=
  cfg.requiredFields.all (requiredFieldOk data)

/-- _validateApplicationData (part_001 lines 1050-1057). -/
def validateApplicationData (data : List (String × FieldVal)) : Bool :=
  (alookup "payload" data).isSome || (alookup "data" data).isSome

/-- _validateServiceData (part_001 lines 1060-1067). -/
def validateServiceData (data : List (String × FieldVal)) : Bool :=
  (alookup "service" data).isSome && (alookup "operation" data).isSome

/-- _validateData (part_001 lines 1007-1030): category-specific dispatch,
falling back to the required-field check for unknown categories.  The
leading typeof-object guard always passes here because payloads are
modelled as records. -/
def validateData (cfg : Config) (data : List (String × FieldVal)) (dataType : String) : Bool :=
  if dataType = "sensor" then validateSensorData cfg data
  else if dataType = "application" then validateApplicationData data
  else if dataType = "service" then validateServiceData data
  else validateSensorData cfg data

/-- The opaque store's encrypt(value) capability, modelled as an injective
tagging of the String(...) coercion of the plaintext. -/
def encryptVal (v : FieldVal) : FieldVal :=
  FieldVal.vStr ("encrypted:" ++ fieldToString v)

/-- The field-encryption loop of _saveToDatabase (part_001 lines
1075-1086): each configured field that is present and non-null is replaced
by its encrypted form before the insert. -/
def encryptRecord (cfg : Config) (r : List (String × FieldVal)) : List (String × FieldVal) :=
  if cfg.dbHasEncrypt = true ∧ ¬ cfg.fieldsToEncrypt = [] then
    r.map (fun p =>
      if p.1 ∈ cfg.fieldsToEncrypt ∧ ¬ p.2 = FieldVal.vNull then (p.1, encryptVal p.2) else p)
  else r

/-- The metadata annotation of _handleDataMessage (part_001 lines
509-516): object spread followed by key updates, so existing keys are
overwritten. -/
def annotateData (cd : ClientData) (dataType : String) (now : Nat)
    (data : List (String × FieldVal)) : List (String × FieldVal) :=
  setKey "received_at" (FieldVal.vNum (Int.ofNat now))
    (setKey "data_type" (FieldVal.vStr dataType)
      (setKey "client_type" (FieldVal.vStr cd.clientType)
        (setKey "client_ip" (FieldVal.vStr cd.ip)
          (setKey "client_id" (FieldVal.vStr cd.id) data))))

/-- _saveToDatabase (part_001 lines 1070-1140): one insert call against
the opaque store with the encrypted record.  The data_response that
follows depends on the store's asynchronous result and is not part of the
synchronous effect list. -/
def saveToDatabase (cfg : Config) (record : List (String × FieldVal)) : List Effect :=
  [Effect.dbInsert ((cfg.dbTableName).getD "") (encryptRecord cfg record)]

/-- _handleDataMessage (part_001 lines 482-561).  This is the only
message handler that checks the authentication flag. -/
def handleDataMessage (cfg : Config) (st : ServerState) (ws : Nat) (cd : ClientData)
    (data : List (String × FieldVal)) (dataType? : Option String) (requestId : Option String)
    (now : Nat) : ServerState × List Effect :=
  if cfg.enableAuthentication = true ∧ cd.isAuthenticated = false then
    (st, [Effect.send ws (OutMsg.errorMsg "Authentication required")])
  else
    if cfg.enableDataValidation = true ∧
        validateData cfg data (dataType?.getD "general") = false then
      (st, [Effect.send ws (OutMsg.dataResponse false (some "Data validation failed") requestId)])
    else
      if cfg.hasDb = true ∧ (cfg.dbTableName).isSome then
        (st, saveToDatabase cfg (annotateData cd (dataType?.getD "general") now data) ++
             [Effect.emitEvent "data-received"])
      else
        (st, [Effect.send ws (OutMsg.dataResponse true none requestId),
              Effect.emitEvent "data-received"])

/-- _handleRequest (part_001 lines 564-595): inbound requests are handed
to application code through a request event; the handler itself mutates
no table. -/
def handleRequest (cfg : Config) (st : ServerState) (ws : Nat)
    (_requestId _endpoint : String) : ServerState × List Effect :=
  if cfg.enableRequestResponse = false then
    (st, [Effect.send ws (OutMsg.errorMsg "Request-response not enabled")])
  else
    (st, [Effect.emitEvent "request"])

/-- JS promise settlement: settling an already-settled promise is a no-op. -/
def settleOne (new : PromiseStatus) : PromiseStatus → PromiseStatus
  | PromiseStatus.unresolved => new
  | old => old

/-- Settle the ledger entry of one request id. -/
def settle (ps : List (String × PromiseStatus)) (k : String) (new : PromiseStatus) :
    List (String × PromiseStatus) :=
  ps.map (fun p => if p.1 = k then (p.1, settleOne new p.2) else p)

/-- _handleResponse (part_001 lines 598-612): a response whose id is in
the pending table clears the timeout, deletes the entry and settles the
promise; any other response changes nothing and raises no error. -/
def handleResponse (st : ServerState) (requestId : String) (success : Bool) :
    ServerState × List Effect :=
  if requestId ∈ st.pendingRequests then
    ({ st with
        timers := removeAll requestId st.timers,
        pendingRequests := removeAll requestId st.pendingRequests,
        promises := settle st.promises requestId
          (if success then PromiseStatus.resolvedOk else PromiseStatus.rejectedError) }, [])
  else (st, [])

/-- _handleSubscribe (part_001 lines 615-643). -/
def handleSubscribe (cfg : Config) (st : ServerState) (ws : Nat) (cd : ClientData)
    (topic : String) : ServerState × List Effect :=
  if cfg.enablePubSub = false then
    (st, [Effect.send ws (OutMsg.errorMsg "Pub-Sub not enabled")])
  else
    let subs := (alookup topic st.subscriptions).getD []
    let st1 := { st with subscriptions := setKey topic (addOnce ws subs) st.subscriptions }
    let st2 := updateClient st1 ws { cd with subscriptions := addOnce topic cd.subscriptions }
    (st2, [Effect.send ws (OutMsg.subscribeResponse topic), Effect.emitEvent "client-subscribed"])

/-- _handleUnsubscribe (part_001 lines 646-667): removes the socket from
the topic entry, deletes the entry when it becomes empty, and always
acknowledges (note: the source has no enablePubSub guard here). -/
def handleUnsubscribe (st : ServerState) (ws : Nat) (cd : ClientData)
    (topic : String) : ServerState × List Effect :=
  let st1 :=
    match alookup topic st.subscriptions with
    | none => st
    | some subs =>
      let subs' := removeAll ws subs
      if subs' = [] then { st with subscriptions := eraseKey topic st.subscriptions }
      else { st with subscriptions := setKey topic subs' st.subscriptions }
  let st2 := updateClient st1 ws { cd with subscriptions := removeAll topic cd.subscriptions }
  (st2,
   [Effect.send ws (OutMsg.unsubscribeResponse topic), Effect.emitEvent "client-unsubscribed"])

/-- The recipients computed by the forEach loop of publish (part_001 lines
881-892): subscribers that are still registered, not the excluded client,
and whose socket is open. -/
def publishTargets (st : ServerState) (topic : String) (excl : Option String) : List Nat :=
  (subscribersOf st topic).filter (fun w =>
    match alookup w st.clients with
    | some cd => decide (¬ excl = some cd.id) && decide (w ∈ st.openSockets)
    | none => false)

/-- publish (part_001 lines 873-896): fan a payload out to the topic's
subscriber set minus the excluded client, returning the recipient count.
The server state is read but never mutated. -/
def publish (st : ServerState) (topic : String) (payload : List (String × FieldVal))
    (excl : Option String) : Nat × List Effect :=
  match alookup topic st.subscriptions with
  | none => (0, [])
  | some _ =>
    let t := publishTargets st topic excl
    (t.length, t.map (fun w => Effect.send w (OutMsg.publishMsg topic payload)))

/-- _handlePublish (part_001 lines 670-690): fans out with the sender's
own id excluded and then acknowledges. -/
def handlePublish (cfg : Config) (st : ServerState) (ws : Nat) (cd : ClientData)
    (topic : String) (payload : List (String × FieldVal)) : ServerState × List Effect :=
  if cfg.enablePubSub = false then
    (st, [Effect.send ws (OutMsg.errorMsg "Pub-Sub not enabled")])
  else
    (st, (publish st topic payload (some cd.id)).2 ++
         [Effect.send ws (OutMsg.publishResponse topic)])

/-- _handleRPCCall (part_001 lines 693-758): a registered method is
invoked and answered; a missing method yields a not-found error reply.
The handler's own result value is abstracted. -/
def handleRPCCall (cfg : Config) (st : ServerState) (ws : Nat)
    (requestId : Option String) (method : String) : ServerState × List Effect :=
  if cfg.enableRPC = false then
    (st, [Effect.send ws (OutMsg.errorMsg "RPC not enabled")])
  else if method ∈ st.rpcMethods then
    (st, [Effect.rpcInvoke method, Effect.send ws (OutMsg.rpcResponse requestId true)])
  else
    (st, [Effect.send ws (OutMsg.rpcResponse requestId false)])

/-- _handleStreamStart (part_001 lines 761-788): unconditionally stores
the session under streamId (Map.set, replacing any active session with
the same id) and acknowledges success. -/
def handleStreamStart (cfg : Config) (st : ServerState) (ws : Nat) (cd : ClientData)
    (streamId streamType : String) (now : Nat) : ServerState × List Effect :=
  if cfg.enableStreaming = false then
    (st, [Effect.send ws (OutMsg.errorMsg "Streaming not enabled")])
  else
    let session : StreamSession :=
      { clientId := cd.id, ws := ws, streamType := streamType, startedAt := now }
    ({ st with streams := setKey streamId session st.streams },
     [Effect.send ws (OutMsg.streamStartResponse streamId), Effect.emitEvent "stream-started"])

/-- _handleStreamData (part_001 lines 791-801): forwards the chunk to
application code as an event; no table is consulted or mutated. -/
def handleStreamData (st : ServerState) (_ws : Nat) (_streamId : String)
    (_seq : Option Nat) : ServerState × List Effect :=
  (st, [Effect.emitEvent "stream-data"])

/-- _handleStreamEnd (part_001 lines 804-818). -/
def handleStreamEnd (st : ServerState) (ws : Nat) (streamId : String) :
    ServerState × List Effect :=
  if (alookup streamId st.streams).isSome then
    ({ st with streams := eraseKey streamId st.streams },
     [Effect.emitEvent "stream-ended", Effect.send ws (OutMsg.streamEndResponse streamId)])
  else
    (st, [Effect.send ws (OutMsg.streamEndResponse streamId)])

/-- _handleHeartbeat (part_001 lines 829-837): the only message handler
that refreshes lastHeartbeat. -/
def handleHeartbeat (st : ServerState) (ws : Nat) (cd : ClientData) (now : Nat) :
    ServerState × List Effect :=
  (updateClient st ws { cd with lastHeartbeat := now },
   [Effect.send ws OutMsg.heartbeatResponse])

/-- The pre-switch bookkeeping of _handleClientMessage (part_001 lines
311-312): every parsed inbound message updates lastDataTime and the
message counter of the clientData object, but NOT lastHeartbeat. -/
def bumpCounters (cd : ClientData) (now : Nat) : ClientData :=
  { cd with lastDataTime := some now, dataReceived := cd.dataReceived + 1 }

/-- The switch of _handleClientMessage (part_001 lines 315-383), routing
a message from a registered connection whose clientData is cd. -/
def dispatchMessage (cfg : Config) (st : ServerState) (ws : Nat) (cd : ClientData)
    (msg : ClientMessage) (now : Nat) : ServerState × List Effect :=
  match msg with
  | ClientMessage.handshake t caps =>
      handleHandshake cfg (updateClient st ws (bumpCounters cd now)) ws (bumpCounters cd now)
        t caps
  | ClientMessage.auth tok =>
      handleAuthentication cfg (updateClient st ws (bumpCounters cd now)) ws
        (bumpCounters cd now) tok
  | ClientMessage.sensorData data rid =>
      handleDataMessage cfg (updateClient st ws (bumpCounters cd now)) ws (bumpCounters cd now)
        data (some "sensor") rid now
  | ClientMessage.dataMsg data dt rid =>
      handleDataMessage cfg (updateClient st ws (bumpCounters cd now)) ws (bumpCounters cd now)
        data dt rid now
  | ClientMessage.request rid ep =>
      handleRequest cfg (updateClient st ws (bumpCounters cd now)) ws rid ep
  | ClientMessage.response rid s _ =>
      handleResponse (updateClient st ws (bumpCounters cd now)) rid s
  | ClientMessage.subscribe topic =>
      handleSubscribe cfg (updateClient st ws (bumpCounters cd now)) ws (bumpCounters cd now)
        topic
  | ClientMessage.unsubscribe topic =>
      handleUnsubscribe (updateClient st ws (bumpCounters cd now)) ws (bumpCounters cd now)
        topic
  | ClientMessage.publishM topic payload =>
      handlePublish cfg (updateClient st ws (bumpCounters cd now)) ws (bumpCounters cd now)
        topic payload
  | ClientMessage.rpcCall rid m =>
      handleRPCCall cfg (updateClient st ws (bumpCounters cd now)) ws rid m
  | ClientMessage.streamStart sid stype =>
      handleStreamStart cfg (updateClient st ws (bumpCounters cd now)) ws (bumpCounters cd now)
        sid stype now
  | ClientMessage.streamData sid seq =>
      handleStreamData (updateClient st ws (bumpCounters cd now)) ws sid seq
  | ClientMessage.streamEnd sid =>
      handleStreamEnd (updateClient st ws (bumpCounters cd now)) ws sid
  | ClientMessage.heartbeat =>
      handleHeartbeat (updateClient st ws (bumpCounters cd now)) ws (bumpCounters cd now) now
  | ClientMessage.ping =>
      (updateClient st ws (bumpCounters cd now), [Effect.send ws OutMsg.pongMsg])

/-- _handleClientMessage (part_001 lines 292-393), the dispatcher:
modelled for sockets present in the registry (the closure-captured
clientData of a registered socket is its registry entry). -/
def handleClientMessage (cfg : Config) (st : ServerState) (ws : Nat)
    (msg : ClientMessage) (now : Nat) : ServerState × List Effect :=
  match alookup ws st.clients with
  | none => (st, [])
  | some cd => dispatchMessage cfg st ws cd msg now

/-- The Promise executor body of sendRequest (part_001 lines 850-868):
schedule the timeout, store the pending entry, send the request message.
The created promise enters the ledger unresolved. -/
def registerPending (st : ServerState) (ws : Nat) (requestId endpoint : String) :
    ServerState × List Effect :=
  ({ st with
      timers := requestId :: st.timers,
      pendingRequests := requestId :: st.pendingRequests,
      promises := (requestId, PromiseStatus.unresolved) :: st.promises },
   [Effect.send ws (OutMsg.requestMsg requestId endpoint)])

/-- The setTimeout callback of sendRequest (part_001 lines 851-854): the
pending entry is deleted first, then the promise is rejected with the
timeout error.  Firing consumes the timer handle. -/
def timeoutFire (st : ServerState) (requestId : String) : ServerState :=
  { st with
      timers := removeAll requestId st.timers,
      pendingRequests := removeAll requestId st.pendingRequests,
      promises := settle st.promises requestId PromiseStatus.rejectedTimeout }

/-- _getClientByIdAndSocket (part_001 lines 997-1004): linear scan of the
registry comparing each clientData.id with the argument by strict
equality; none models the JS value undefined. -/
def getClientByIdAndSocket (st : ServerState) (clientId : Option String) :
    Option (Nat × ClientData) :=
  st.clients.find? (fun p => decide (some p.2.id = clientId))

/-- sendRequest (part_001 lines 842-870).  The source calls
this._getClientByIdAndSocket() WITHOUT passing clientId (line 843), so
the scan compares every id against undefined; the clientId parameter is
only used to build the error text. -/
def sendRequest (st : ServerState) (clientId : String) (endpoint : String)
    (requestId : String) : Except String (ServerState × List Effect) :=
  match getClientByIdAndSocket st none with
  | none => Except.error ("Client " ++ clientId ++ " not found")
  | some c => Except.ok (registerPending st c.1 requestId endpoint)

/-- sendStreamData (part_001 lines 966-979): forwards a chunk to the
owning connection of an active stream, reporting failure for an unknown
id. -/
def sendStreamData (st : ServerState) (streamId : String) (seq : Option Nat) :
    Bool × List Effect :=
  match alookup streamId st.streams with
  | some s => (true, [Effect.send s.ws (OutMsg.streamDataMsg streamId seq)])
  | none => (false, [])

/-- stop (part_001 lines 124-174): clear every pending timeout, clear the
pending, stream and subscription tables, close every open client socket
with a normal-closure code, empty the registry, reset the counter and
finally close the listening server.  The pending promises are NOT
settled; the ledger is untouched. -/
def stop (st : ServerState) : ServerState × List Effect :=
  if st.isRunning = false then (st, [])
  else
    ({ st with
        timers := st.timers.filter (fun t => decide (¬ t ∈ st.pendingRequests)),
        pendingRequests := [],
        streams := [],
        subscriptions := [],
        clients := [],
        isRunning := false,
        connectionCount := 0 },
     (st.clients.filterMap (fun p =>
        if p.1 ∈ st.openSockets then some (Effect.closeSocket p.1 1000 "Server shutdown")
        else none)) ++ [Effect.serverClose])

/-- The clientData record built for a freshly accepted connection
(part_001 lines 212-224). -/
def freshClient (cfg : Config) (clientId clientIp : String) (now : Nat) : ClientData :=
  { id := clientId, ip := clientIp, connectedAt := now, lastHeartbeat := now,
    isAuthenticated := !cfg.enableAuthentication, dataReceived := 0, lastDataTime := none,
    clientType := "unknown", subscriptions := [], capabilities := [] }

/-- _handleNewConnection (part_001 lines 196-263): reject at capacity,
otherwise insert the registry entry and increment the counter together. -/
def handleNewConnection (cfg : Config) (st : ServerState) (ws : Nat)
    (clientId clientIp : String) (now : Nat) : ServerState × List Effect :=
  if (cfg.maxConnections : Int) ≤ st.connectionCount then
    (st, [Effect.closeSocket ws 1013 "Server overloaded"])
  else
    ({ st with
        clients := setKey ws (freshClient cfg clientId clientIp now) st.clients,
        connectionCount := st.connectionCount + 1,
        openSockets := addOnce ws st.openSockets },
     [Effect.send ws (OutMsg.welcome clientId), Effect.emitEvent "client-connected"])

/-- One step of the subscription-cleanup loop of _handleClientDisconnection
(part_001 lines 1147-1154). -/
def cleanupStep (ws : Nat) (acc : List (String × List Nat)) (topic : String) :
    List (String × List Nat) :=
  match alookup topic acc with
  | none => acc
  | some s =>
    let s' := removeAll ws s
    if s' = [] then eraseKey topic acc else setKey topic s' acc

/-- The subscription-cleanup loop over the disconnecting client's topic
set. -/
def cleanupTopics (ws : Nat) (topics : List String) (m : List (String × List Nat)) :
    List (String × List Nat) :=
  topics.foldl (cleanupStep ws) m

/-- _handleClientDisconnection (part_001 lines 1143-1183): cascade the
teardown into the subscription index and the stream table, then delete
the registry entry and decrement the counter.  The clientData argument is
the closure-captured object, which for a registered socket is its
registry entry; the registry deletion and the counter decrement are
unconditional in the source. -/
def handleClientDisconnection (st : ServerState) (ws : Nat) (cd : ClientData) :
    ServerState × List Effect :=
  ({ st with
      subscriptions := cleanupTopics ws cd.subscriptions st.subscriptions,
      streams := st.streams.filter (fun p => decide (¬ p.2.clientId = cd.id)),
      clients := eraseKey ws st.clients,
      connectionCount := st.connectionCount - 1 },
   [Effect.emitEvent "client-disconnected"])

/-- One firing of the per-connection heartbeat interval
(_startClientHeartbeat, part_001 lines 1186-1202): on an open socket the
monitor force-closes when the time since the closure-captured clientData's
lastHeartbeat exceeds twice the interval, and otherwise sends a ping
probe; on a closed socket it cancels itself. -/
def heartbeatTick (cfg : Config) (st : ServerState) (ws : Nat) (cd : ClientData)
    (now : Nat) : List Effect :=
  if ws ∈ st.openSockets then
    if cfg.heartbeatInterval * 2 < now - cd.lastHeartbeat then
      [Effect.closeSocket ws 1000 "Heartbeat timeout"]
    else [Effect.wsPing ws]
  else []

/-- The pong listener installed in _setupClientEventHandlers (part_001
lines 285-288): a transport-level liveness acknowledgment refreshes
lastHeartbeat. -/
def pongReceived (st : ServerState) (ws : Nat) (now : Nat) : ServerState :=
  match alookup ws st.clients with
  | some cd => updateClient st ws { cd with lastHeartbeat := now }
  | none => st

/-- The effect of the cleanup step on one topic's subscriber set: removal
of the socket, with deletion of the entry when it empties. -/
def shrinkSubs (ws : Nat) (s : List Nat) : Option (List Nat) :=
  if removeAll ws s = [] then none else some (removeAll ws s)

/-- A plain clientData record used by the concrete evaluations below. -/
def cdFixture (cid : String) (authed : Bool) : ClientData :=
  { id := cid, ip := "127.0.0.1", connectedAt := 0, lastHeartbeat := 0,
    isAuthenticated := authed, dataReceived := 0, lastDataTime := none,
    clientType := "unknown", subscriptions := [], capabilities := [] }

/-- The constructor defaults of part_001 lines 10-36 with authentication
disabled and no database instance. -/
def cfgOpen : Config :=
  { enableAuthentication := false, authToken := "secret", dbTableName := some "sensors_data",
    hasDb := false, dbHasEncrypt := false, requiredFields := [], fieldsToEncrypt := [],
    enableHeartbeat := true, heartbeatInterval := 30000, maxConnections := 100,
    enableDataValidation := true, enableRequestResponse := true, enablePubSub := true,
    enableRPC := true, enableStreaming := true, requestTimeout := 10000,
    clientTypes := ["microcontroller", "application", "service"] }

/-- The same configuration under the shared-token policy. -/
def cfgAuth : Config := { cfgOpen with enableAuthentication := true }

/-- The open configuration with one configured required ingest field. -/
def cfgVal : Config := { cfgOpen with requiredFields := ["temperature"] }

/-- A running server holding one unauthenticated connection. -/
def stOne : ServerState :=
  { isRunning := true, connectionCount := 1, clients := [(1, cdFixture "client_1" false)],
    openSockets := [1], pendingRequests := [], timers := [], subscriptions := [],
    streams := [], promises := [], rpcMethods := [] }

/-- A running server with two authenticated clients both subscribed to
topic t. -/
def stPub : ServerState :=
  { isRunning := true, connectionCount := 2,
    clients := [(1, cdFixture "A" true), (2, cdFixture "B" true)],
    openSockets := [1, 2], pendingRequests := [], timers := [],
    subscriptions := [("t", [1, 2])], streams := [], promises := [], rpcMethods := [] }

/-- A running server with one active stream session s1 owned by client A. -/
def stStream : ServerState :=
  { isRunning := true, connectionCount := 2,
    clients := [(1, cdFixture "A" true), (2, cdFixture "B" true)],
    openSockets := [1, 2], pendingRequests := [], timers := [], subscriptions := [],
    streams := [("s1", { clientId := "A", ws := 1, streamType := "audio", startedAt := 0 })],
    promises := [], rpcMethods := [] }

/-- Client A subscribed to topic t, for the teardown scenario. -/
def cdA : ClientData := { cdFixture "A" true with subscriptions := ["t"] }

/-- A running server where client A (socket 1) owns two stream sessions
and one topic subscription, next to client B. -/
def stTear : ServerState :=
  { isRunning := true, connectionCount := 2,
    clients := [(1, cdA), (2, cdFixture "B" true)],
    openSockets := [1, 2], pendingRequests := [], timers := [],
    subscriptions := [("t", [1, 2])],
    streams := [("s1", { clientId := "A", ws := 1, streamType := "audio", startedAt := 0 }),
                ("s2", { clientId := "A", ws := 1, streamType := "video", startedAt := 0 })],
    promises := [], rpcMethods := [] }

/-- A running server with one outstanding outbound request r1 whose
promise is still unresolved. -/
def stPend : ServerState :=
  { isRunning := true, connectionCount := 0, clients := [], openSockets := [],
    pendingRequests := ["r1"], timers := ["r1"], subscriptions := [], streams := [],
    promises := [("r1", PromiseStatus.unresolved)], rpcMethods := [] }

/-- A running server holding one authenticated connection whose last
liveness acknowledgment was at instant 0. -/
def stHb : ServerState :=
  { isRunning := true, connectionCount := 1, clients := [(1, cdFixture "A" true)],
    openSockets := [1], pendingRequests := [], timers := [], subscriptions := [],
    streams := [], promises := [], rpcMethods := [] }

/-- The registry entry of stHb after the dispatcher's pre-switch
bookkeeping for a message received at instant 60001. -/
def cdHbAfter : ClientData :=
  { cdFixture "A" true with lastDataTime := some 60001, dataReceived := 1 }

/-- A stopped, empty server: the situation after stop() has cleared the
registry while close events of the torn-down sockets are still queued. -/
def stEmptyStopped : ServerState :=
  { isRunning := false, connectionCount := 0, clients := [], openSockets := [],
    pendingRequests := [], timers := [], subscriptions := [], streams := [],
    promises := [], rpcMethods := [] }

/-! Association-list and set lemmas used by the claim proofs. -/

theorem alookup_setKey_self {α β : Type} [DecidableEq α] (k : α) (v : β)
    (l : List (α × β)) : alookup k (setKey k v l) = some v := by
  induction l with
  | nil => simp [setKey, alookup]
  | cons p rest ih =>
    obtain ⟨k', v'⟩ := p
    by_cases h : k' = k
    · simp [setKey, h, alookup]
    · simp [setKey, h, alookup, ih]

theorem alookup_setKey_ne {α β : Type} [DecidableEq α] (k k' : α) (v : β)
    (l : List (α × β)) (h : ¬ k' = k) : alookup k' (setKey k v l) = alookup k' l := by
  have h' : ¬ k = k' := fun hc => h hc.symm
  induction l with
  | nil => simp [setKey, alookup, h']
  | cons p rest ih =>
    obtain ⟨k₀, v₀⟩ := p
    by_cases hk : k₀ = k
    · subst hk
      simp [setKey, alookup, h']
    · simp [setKey, hk, alookup, ih]

theorem alookup_eraseKey_self {α β : Type} [DecidableEq α] (k : α)
    (l : List (α × β)) : alookup k (eraseKey k l) = none := by
  induction l with
  | nil => simp [eraseKey, alookup]
  | cons p rest ih =>
    obtain ⟨k', v'⟩ := p
    by_cases h : k' = k
    · simp [eraseKey, h, ih]
    · simp [eraseKey, h, alookup, ih]

theorem alookup_eraseKey_ne {α β : Type} [DecidableEq α] (k k' : α)
    (l : List (α × β)) (h : ¬ k' = k) : alookup k' (eraseKey k l) = alookup k' l := by
  have h' : ¬ k = k' := fun hc => h hc.symm
  induction l with
  | nil => simp [eraseKey]
  | cons p rest ih =>
    obtain ⟨k₀, v₀⟩ := p
    by_cases hk : k₀ = k
    · subst hk
      simp [eraseKey, alookup, h', ih]
    · simp [eraseKey, hk, alookup, ih]

theorem mem_removeAll {α : Type} [DecidableEq α] (a b : α) (xs : List α) :
    b ∈ removeAll a xs ↔ (b ∈ xs ∧ ¬ b = a) := by
  simp [removeAll, List.mem_filter]

theorem not_mem_removeAll {α : Type} [DecidableEq α] (a : α) (xs : List α) :
    ¬ a ∈ removeAll a xs := by
  simp [mem_removeAll]

theorem removeAll_of_not_mem {α : Type} [DecidableEq α] (a : α) (xs : List α)
    (h : ¬ a ∈ xs) : removeAll a xs = xs := by
  induction xs with
  | nil => rfl
  | cons x rest ih =>
    have hx : ¬ x = a := fun hc => h (by simp [hc])
    have hrest : ¬ a ∈ rest := fun hc => h (by simp [hc])
    simp [removeAll, hx, List.filter] at ih ⊢
    exact ih hrest

theorem alookup_none_of_not_mem_keys {α β : Type} [DecidableEq α] (k : α)
    (l : List (α × β)) (h : ¬ k ∈ l.map Prod.fst) : alookup k l = none := by
  induction l with
  | nil => rfl
  | cons p rest ih =>
    obtain ⟨k', v'⟩ := p
    have h1 : ¬ k' = k := fun hc => h (by simp [hc])
    have h2 : ¬ k ∈ rest.map Prod.fst := fun hc => h (by simp [hc])
    simp [alookup, h1, ih h2]

theorem setKey_of_alookup_none {α β : Type} [DecidableEq α] (k : α) (v : β)
    (l : List (α × β)) (h : alookup k l = none) : setKey k v l = l ++ [(k, v)] := by
  induction l with
  | nil => rfl
  | cons p rest ih =>
    obtain ⟨k', v'⟩ := p
    by_cases hk : k' = k
    · simp [alookup, hk] at h
    · simp [alookup, hk] at h
      simp [setKey, hk, ih h]

theorem eraseKey_of_alookup_none {α β : Type} [DecidableEq α] (k : α)
    (l : List (α × β)) (h : alookup k l = none) : eraseKey k l = l := by
  induction l with
  | nil => rfl
  | cons p rest ih =>
    obtain ⟨k', v'⟩ := p
    by_cases hk : k' = k
    · simp [alookup, hk] at h
    · simp [alookup, hk] at h
      simp [eraseKey, hk, ih h]

theorem length_eraseKey_nodup {α β : Type} [DecidableEq α] (k : α) (v : β)
    (l : List (α × β)) (hnd : (l.map Prod.fst).Nodup) (h : alookup k l = some v) :
    (eraseKey k l).length + 1 = l.length := by
  induction l with
  | nil => simp [alookup] at h
  | cons p rest ih =>
    obtain ⟨k', v'⟩ := p
    simp only [List.map_cons, List.nodup_cons] at hnd
    by_cases hk : k' = k
    · subst hk
      have hrest : alookup k' rest = none := alookup_none_of_not_mem_keys k' rest hnd.1
      simp [eraseKey, eraseKey_of_alookup_none k' rest hrest]
    · simp [alookup, hk] at h
      simp [eraseKey, hk, ih hnd.2 h]

theorem alookup_filter_imp {α β : Type} [DecidableEq α] (k : α) (v : β)
    (p : α × β → Bool) (l : List (α × β)) (h : alookup k (l.filter p) = some v) :
    p (k, v) = true := by
  induction l with
  | nil => simp [alookup] at h
  | cons hd rest ih =>
    obtain ⟨k', v'⟩ := hd
    by_cases hp : p (k', v') = true
    · rw [List.filter_cons_of_pos hp] at h
      by_cases hk : k' = k
      · subst hk
        simp [alookup] at h
        subst h
        exact hp
      · simp [alookup, hk] at h
        exact ih h
    · rw [List.filter_cons_of_neg (by simpa using hp)] at h
      exact ih h

theorem alookup_filter_of_none {α β : Type} [DecidableEq α] (k : α)
    (p : α × β → Bool) (l : List (α × β)) (h : alookup k l = none) :
    alookup k (l.filter p) = none := by
  induction l with
  | nil => rfl
  | cons hd rest ih =>
    obtain ⟨k', v'⟩ := hd
    by_cases hk : k' = k
    · simp [alookup, hk] at h
    · simp [alookup, hk] at h
      by_cases hp : p (k', v') = true
      · rw [List.filter_cons_of_pos hp]
        simp [alookup, hk, ih h]
      · rw [List.filter_cons_of_neg (by simpa using hp)]
        exact ih h

theorem alookup_filter_none_of_nodup {α β : Type} [DecidableEq α] (k : α) (v : β)
    (p : α × β → Bool) (l : List (α × β)) (hnd : (l.map Prod.fst).Nodup)
    (h : alookup k l = some v) (hp : p (k, v) = false) :
    alookup k (l.filter p) = none := by
  induction l with
  | nil => simp [alookup] at h
  | cons hd rest ih =>
    obtain ⟨k', v'⟩ := hd
    simp only [List.map_cons, List.nodup_cons] at hnd
    by_cases hk : k' = k
    · subst hk
      simp [alookup] at h
      subst h
      rw [List.filter_cons_of_neg (by simp [hp])]
      have hrest : alookup k' rest = none := alookup_none_of_not_mem_keys k' rest hnd.1
      exact alookup_filter_of_none k' p rest hrest
    · simp [alookup, hk] at h
      by_cases hq : p (k', v') = true
      · rw [List.filter_cons_of_pos hq]
        simp [alookup, hk, ih hnd.2 h]
      · rw [List.filter_cons_of_neg (by simpa using hq)]
        exact ih hnd.2 h

theorem alookup_map_update {β : Type} (ws : Nat) (cd : β) (l : List (Nat × β)) :
    alookup ws (l.map (fun p => if p.1 = ws then (ws, cd) else p)) =
      (alookup ws l).map (fun _ => cd) := by
  induction l with
  | nil => rfl
  | cons p rest ih =>
    obtain ⟨k, v⟩ := p
    show alookup ws ((if k = ws then (ws, cd) else (k, v)) :: _) = _
    by_cases hk : k = ws
    · rw [if_pos hk]
      subst hk
      simp [alookup]
    · rw [if_neg hk]
      simp [alookup, hk, ih]

theorem alookup_map_update_ne {β : Type} (ws w : Nat) (cd : β) (l : List (Nat × β))
    (h : ¬ w = ws) :
    alookup w (l.map (fun p => if p.1 = ws then (ws, cd) else p)) = alookup w l := by
  have h' : ¬ ws = w := fun hc => h hc.symm
  induction l with
  | nil => rfl
  | cons p rest ih =>
    obtain ⟨k, v⟩ := p
    show alookup w ((if k = ws then (ws, cd) else (k, v)) :: _) = _
    by_cases hk : k = ws
    · rw [if_pos hk]
      subst hk
      simp [alookup, h', ih]
    · rw [if_neg hk]
      simp [alookup, ih]

theorem shrinkSubs_idem (ws : Nat) (s s' : List Nat)
    (h : shrinkSubs ws s = some s') : shrinkSubs ws s' = some s' := by
  unfold shrinkSubs at h
  by_cases hz : removeAll ws s = []
  · simp [hz] at h
  · simp [hz] at h
    subst h
    have hnm : ¬ ws ∈ removeAll ws s := not_mem_removeAll ws s
    unfold shrinkSubs
    rw [removeAll_of_not_mem ws _ hnm]
    simp [hz]

theorem bind_shrinkSubs_idem (ws : Nat) (x : Option (List Nat)) :
    (x.bind (shrinkSubs ws)).bind (shrinkSubs ws) = x.bind (shrinkSubs ws) := by
  cases x with
  | none => rfl
  | some s =>
    show (shrinkSubs ws s).bind (shrinkSubs ws) = shrinkSubs ws s
    cases hf : shrinkSubs ws s with
    | none => rfl
    | some s' => simp [shrinkSubs_idem ws s s' hf]

theorem alookup_cleanupStep (ws : Nat) (m : List (String × List Nat)) (topic t : String) :
    alookup t (cleanupStep ws m topic) =
      if topic = t then (alookup t m).bind (shrinkSubs ws) else alookup t m := by
  unfold cleanupStep
  by_cases ht : topic = t
  · subst ht
    cases h : alookup topic m with
    | none => simp [h]
    | some s =>
      by_cases hz : removeAll ws s = []
      · simp [h, hz, alookup_eraseKey_self, shrinkSubs]
      · simp [h, hz, alookup_setKey_self, shrinkSubs]
  · cases h : alookup topic m with
    | none => simp [h, ht]
    | some s =>
      by_cases hz : removeAll ws s = []
      · simp [h, hz, ht, alookup_eraseKey_ne topic t m (fun hc => ht hc.symm)]
      · simp [h, hz, ht, alookup_setKey_ne topic t (removeAll ws s) m (fun hc => ht hc.symm)]

theorem alookup_cleanupTopics (ws : Nat) (topics : List String)
    (m : List (String × List Nat)) (t : String) :
    alookup t (cleanupTopics ws topics m) =
      if t ∈ topics then (alookup t m).bind (shrinkSubs ws) else alookup t m := by
  induction topics generalizing m with
  | nil => simp [cleanupTopics]
  | cons topic rest ih =>
    show alookup t (cleanupTopics ws rest (cleanupStep ws m topic)) = _
    rw [ih (cleanupStep ws m topic)]
    by_cases h1 : t ∈ rest
    · rw [if_pos h1, if_pos (by simp [h1])]
      rw [alookup_cleanupStep]
      by_cases h2 : topic = t
      · rw [if_pos h2, bind_shrinkSubs_idem]
      · rw [if_neg h2]
    · rw [if_neg h1]
      rw [alookup_cleanupStep]
      by_cases h2 : topic = t
      · subst h2
        rw [if_pos rfl, if_pos (by simp)]
      · have h2' : ¬ t = topic := fun hc => h2 hc.symm
        rw [if_neg h2, if_neg (by simp [h1, h2'])]

theorem mem_publish_iff (st : ServerState) (topic : String)
    (payload : List (String × FieldVal)) (excl : Option String) (w : Nat) :
    Effect.send w (OutMsg.publishMsg topic payload) ∈ (publish st topic payload excl).2 ↔
      (w ∈ subscribersOf st topic ∧ w ∈ st.openSockets ∧
       ∃ cd, alookup w st.clients = some cd ∧ ¬ excl = some cd.id) := by
  unfold publish
  cases h : alookup topic st.subscriptions with
  | none =>
    simp [subscribersOf, h]
  | some subs =>
    simp only [List.mem_map]
    constructor
    · rintro ⟨v, hv, heq⟩
      have hw : v = w := by
        have := (Effect.send.injEq _ _ _ _).mp heq
        exact this.1
      subst hw
      rw [publishTargets, List.mem_filter] at hv
      refine ⟨hv.1, ?_, ?_⟩
      · cases hc : alookup v st.clients with
        | none => rw [hc] at hv; simp at hv
        | some cd =>
          rw [hc] at hv
          have := hv.2
          simp only [Bool.and_eq_true, decide_eq_true_eq] at this
          exact this.2
      · cases hc : alookup v st.clients with
        | none => rw [hc] at hv; simp at hv
        | some cd =>
          rw [hc] at hv
          have := hv.2
          simp only [Bool.and_eq_true, decide_eq_true_eq] at this
          exact ⟨cd, rfl, this.1⟩
    · rintro ⟨hsub, hopen, cd, hcd, hexcl⟩
      refine ⟨w, ?_, rfl⟩
      rw [publishTargets, List.mem_filter]
      refine ⟨hsub, ?_⟩
      rw [hcd]
      simp [hexcl, hopen]

theorem publish_count_eq_length (st : ServerState) (topic : String)
    (payload : List (String × FieldVal)) (excl : Option String) :
    (publish st topic payload excl).1 = (publish st topic payload excl).2.length := by
  unfold publish
  cases h : alookup topic st.subscriptions with
  | none => rfl
  | some subs => simp

theorem alookup_updateClient_self (st : ServerState) (ws : Nat) (cd cd' : ClientData)
    (h : alookup ws st.clients = some cd) :
    alookup ws (updateClient st ws cd').clients = some cd' := by
  show alookup ws (st.clients.map (fun p => if p.1 = ws then (ws, cd') else p)) = some cd'
  rw [alookup_map_update, h]
  rfl

theorem handleClientMessage_some (cfg : Config) (st : ServerState) (ws : Nat)
    (msg : ClientMessage) (now : Nat) (cd : ClientData)
    (h : alookup ws st.clients = some cd) :
    handleClientMessage cfg st ws msg now = dispatchMessage cfg st ws cd msg now := by
  unfold handleClientMessage
  rw [h]

theorem handleDataMessage_state_eq (cfg : Config) (st : ServerState) (ws : Nat)
    (cd : ClientData) (data : List (String × FieldVal)) (dt : Option String)
    (rid : Option String) (now : Nat) :
    (handleDataMessage cfg st ws cd data dt rid now).1 = st := by
  unfold handleDataMessage
  split
  · rfl
  · split
    · rfl
    · split <;> rfl

/-! Claim C1. -/

/-- C1 counterexample: with shared-token authentication enabled and a
connection that has not authenticated, a subscribe message is NOT
answered with an authentication-required error; it is processed normally,
mutating the subscription index and acknowledging success.  This refutes
the claim that every non-handshake, non-auth message from an
unauthenticated connection is rejected unprocessed. -/
theorem c1_counterexample :
    subscribersOf (handleClientMessage cfgAuth stOne 1 (ClientMessage.subscribe "t") 5).1 "t"
      = [1] ∧
    Effect.send 1 (OutMsg.subscribeResponse "t") ∈
      (handleClientMessage cfgAuth stOne 1 (ClientMessage.subscribe "t") 5).2 ∧
    ¬ Effect.send 1 (OutMsg.errorMsg "Authentication required") ∈
      (handleClientMessage cfgAuth stOne 1 (ClientMessage.subscribe "t") 5).2 := by
  decide

/-- C1 (amended): under the shared-token policy, only data and
sensor_data messages from an unauthenticated registered connection are
rejected with the explicit authentication-required error and left
unprocessed (no store insert, and no change to the subscription, stream
or pending tables); the remaining message kinds are dispatched without
any authentication check. -/
theorem c1_auth_gate_data_only (cfg : Config) (st : ServerState) (ws : Nat)
    (cd : ClientData) (data : List (String × FieldVal)) (dt : Option String)
    (rid : Option String) (now : Nat)
    (hauth : cfg.enableAuthentication = true)
    (hcd : alookup ws st.clients = some cd)
    (hun : cd.isAuthenticated = false) :
    (handleClientMessage cfg st ws (ClientMessage.dataMsg data dt rid) now).2 =
      [Effect.send ws (OutMsg.errorMsg "Authentication required")] ∧
    (handleClientMessage cfg st ws (ClientMessage.sensorData data rid) now).2 =
      [Effect.send ws (OutMsg.errorMsg "Authentication required")] ∧
    (handleClientMessage cfg st ws (ClientMessage.dataMsg data dt rid) now).1.subscriptions
      = st.subscriptions ∧
    (handleClientMessage cfg st ws (ClientMessage.dataMsg data dt rid) now).1.streams
      = st.streams ∧
    (handleClientMessage cfg st ws (ClientMessage.dataMsg data dt rid) now).1.pendingRequests
      = st.pendingRequests ∧
    ∀ tbl rec, ¬ Effect.dbInsert tbl rec ∈
        (handleClientMessage cfg st ws (ClientMessage.dataMsg data dt rid) now).2 := by
  have hgate : cfg.enableAuthentication = true ∧
      (bumpCounters cd now).isAuthenticated = false := ⟨hauth, hun⟩
  have heff : ∀ dt' rid',
      (handleDataMessage cfg (updateClient st ws (bumpCounters cd now)) ws
        (bumpCounters cd now) data dt' rid' now).2 =
      [Effect.send ws (OutMsg.errorMsg "Authentication required")] := by
    intro dt' rid'
    unfold handleDataMessage
    rw [if_pos hgate]
  have e1 : dispatchMessage cfg st ws cd (ClientMessage.dataMsg data dt rid) now =
      handleDataMessage cfg (updateClient st ws (bumpCounters cd now)) ws
        (bumpCounters cd now) data dt rid now := rfl
  have e2 : dispatchMessage cfg st ws cd (ClientMessage.sensorData data rid) now =
      handleDataMessage cfg (updateClient st ws (bumpCounters cd now)) ws
        (bumpCounters cd now) data (some "sensor") rid now := rfl
  rw [handleClientMessage_some cfg st ws (ClientMessage.dataMsg data dt rid) now cd hcd,
      handleClientMessage_some cfg st ws (ClientMessage.sensorData data rid) now cd hcd,
      e1, e2, handleDataMessage_state_eq, heff, heff]
  refine ⟨rfl, rfl, rfl, rfl, rfl, ?_⟩
  intro tbl rec h
  simp at h

/-- C1 witness: a concrete data message from the unauthenticated client
of stOne is answered with the authentication-required error. -/
theorem c1_witness :
    (handleClientMessage cfgAuth stOne 1
        (ClientMessage.dataMsg [("temperature", FieldVal.vNum 21)] none none) 5).2 =
      [Effect.send 1 (OutMsg.errorMsg "Authentication required")] :=
  (c1_auth_gate_data_only cfgAuth stOne 1 (cdFixture "client_1" false)
    [("temperature", FieldVal.vNum 21)] none none 5 (by decide) (by decide) (by decide)).1

/-! Claim C2. -/

/-- C2: sendRequest throws the client-not-found error for EVERY state and
every clientId, registered or not, because the source calls
_getClientByIdAndSocket() without passing the clientId argument, so the
registry scan compares each stored id against undefined and never
matches.  This contradicts the claim that a registered client id leads to
a pending entry and a request message. -/
theorem c2_sendRequest_never_finds_client (st : ServerState)
    (clientId endpoint requestId : String) :
    sendRequest st clientId endpoint requestId =
      Except.error ("Client " ++ clientId ++ " not found") := by
  unfold sendRequest getClientByIdAndSocket
  have h : st.clients.find? (fun p => decide (some p.2.id = none)) = none := by
    apply List.find?_eq_none.mpr
    intro p _
    simp
  rw [h]

/-! Claim C3. -/

/-- C3: at most one pending entry exists per fresh request identifier,
and it is removed exactly once by whichever of matching response or
timeout firing happens first: a response for an identifier that is not
pending changes no state and raises no error; a response for a pending
identifier removes both the entry and its timer (so the timeout can no
longer fire); the timeout path removes the entry and settles the promise
together, after which a late response is a no-op. -/
theorem c3_pending_unique_single_removal (st : ServerState) (ws : Nat)
    (rid endpoint : String) (s : Bool)
    (hfresh : ¬ rid ∈ st.pendingRequests) :
    ((registerPending st ws rid endpoint).1.pendingRequests.count rid = 1) ∧
    (∀ st' : ServerState, ¬ rid ∈ st'.pendingRequests →
        handleResponse st' rid s = (st', [])) ∧
    (∀ st' : ServerState, rid ∈ st'.pendingRequests →
        ¬ rid ∈ (handleResponse st' rid s).1.pendingRequests ∧
        ¬ rid ∈ (handleResponse st' rid s).1.timers) ∧
    (∀ st' : ServerState,
        ¬ rid ∈ (timeoutFire st' rid).pendingRequests ∧
        (timeoutFire st' rid).promises =
          settle st'.promises rid PromiseStatus.rejectedTimeout ∧
        handleResponse (timeoutFire st' rid) rid s = (timeoutFire st' rid, [])) := by
  refine ⟨?_, ?_, ?_, ?_⟩
  · show (rid :: st.pendingRequests).count rid = 1
    rw [List.count_cons_self, List.count_eq_zero.mpr hfresh]
  · intro st' h
    unfold handleResponse
    rw [if_neg h]
  · intro st' h
    unfold handleResponse
    rw [if_pos h]
    exact ⟨not_mem_removeAll rid st'.pendingRequests, not_mem_removeAll rid st'.timers⟩
  · intro st'
    have hout : ¬ rid ∈ (timeoutFire st' rid).pendingRequests :=
      not_mem_removeAll rid st'.pendingRequests
    refine ⟨hout, rfl, ?_⟩
    unfold handleResponse
    rw [if_neg hout]

/-- C3 witness: the pending table of stOne does not contain r, and after
registering the outbound request r its entry occurs exactly once. -/
theorem c3_witness :
    ¬ "r" ∈ stOne.pendingRequests ∧
    (registerPending stOne 1 "r" "status").1.pendingRequests.count "r" = 1 :=
  ⟨by decide, (c3_pending_unique_single_removal stOne 1 "r" "status" true (by decide)).1⟩

/-! Claim C4. -/

/-- C4 counterexample: stopping a running server that holds the pending
request r1 clears the pending entry but leaves its future unresolved in
the promise ledger — it is neither rejected with a shutdown error nor
left to time out (its timer is cancelled), so the caller hangs forever.
This refutes the claim that stop rejects every pending future. -/
theorem c4_counterexample :
    (stop stPend).1.pendingRequests = [] ∧
    (stop stPend).1.timers = [] ∧
    alookup "r1" (stop stPend).1.promises = some PromiseStatus.unresolved := by
  decide

/-- C4 (amended): after stop() on a running server, every pending
request's timer has been cancelled and the pending table is cleared, but
the pending futures are left unsettled (the promise ledger is untouched,
so they are neither rejected nor able to time out); the stream and
subscription tables and the registry are empty, the counter is zero, and
every registered connection with an open socket is sent the normal
closure signal (code 1000) before the final server-close effect. -/
theorem c4_stop_cleanup (st : ServerState) (hrun : st.isRunning = true) :
    (∀ rid, rid ∈ st.pendingRequests → ¬ rid ∈ (stop st).1.timers) ∧
    (stop st).1.pendingRequests = [] ∧
    (stop st).1.promises = st.promises ∧
    (stop st).1.streams = [] ∧
    (stop st).1.subscriptions = [] ∧
    (stop st).1.clients = [] ∧
    (stop st).1.connectionCount = 0 ∧
    (stop st).1.isRunning = false ∧
    (∀ ws cd, (ws, cd) ∈ st.clients → ws ∈ st.openSockets →
        Effect.closeSocket ws 1000 "Server shutdown" ∈ (stop st).2) ∧
    (stop st).2.getLast? = some Effect.serverClose := by
  have hcond : ¬ st.isRunning = false := by simp [hrun]
  unfold stop
  rw [if_neg hcond]
  refine ⟨?_, rfl, rfl, rfl, rfl, rfl, rfl, rfl, ?_, ?_⟩
  · intro rid h hmem
    rw [List.mem_filter] at hmem
    have hp := hmem.2
    simp only [decide_eq_true_eq] at hp
    exact hp h
  · intro ws cd hmem hopen
    apply List.mem_append_left
    apply List.mem_filterMap.mpr
    exact ⟨(ws, cd), hmem, by simp [hopen]⟩
  · simp

/-- C4 witness: stop applied to the concrete running server stPend
empties the pending table and stops the server. -/
theorem c4_witness :
    (stop stPend).1.pendingRequests = [] ∧ (stop stPend).1.isRunning = false :=
  ⟨(c4_stop_cleanup stPend (by decide)).2.1,
   (c4_stop_cleanup stPend (by decide)).2.2.2.2.2.2.2.1⟩

/-! Claim C5. -/

/-- C5: publish sends the payload to exactly the current registered
subscribers of the topic whose socket is open and whose id differs from
the excluded client id; the returned count equals the number of messages
sent; a topic with no entry yields zero recipients with no effects (and
publish by construction leaves the server state untouched); and the
excluded client never receives the payload even when subscribed. -/
theorem c5_publish_exact_recipients (st : ServerState) (topic : String)
    (payload : List (String × FieldVal)) (excl : Option String) :
    (∀ w, Effect.send w (OutMsg.publishMsg topic payload) ∈
        (publish st topic payload excl).2 ↔
        (w ∈ subscribersOf st topic ∧ w ∈ st.openSockets ∧
         ∃ cd, alookup w st.clients = some cd ∧ ¬ excl = some cd.id)) ∧
    (publish st topic payload excl).1 = (publish st topic payload excl).2.length ∧
    (alookup topic st.subscriptions = none → publish st topic payload excl = (0, [])) ∧
    (∀ w cd, alookup w st.clients = some cd → excl = some cd.id →
        ¬ Effect.send w (OutMsg.publishMsg topic payload) ∈
          (publish st topic payload excl).2) := by
  refine ⟨fun w => mem_publish_iff st topic payload excl w,
          publish_count_eq_length st topic payload excl, ?_, ?_⟩
  · intro h
    unfold publish
    rw [h]
  · intro w cd hcd hexcl hmem
    obtain ⟨-, -, cd', hcd', hne⟩ := (mem_publish_iff st topic payload excl w).mp hmem
    rw [hcd] at hcd'
    injection hcd' with hcc
    subst hcc
    exact hne hexcl

/-- C5 witness: publishing on topic t of stPub with client A excluded
delivers to B and not to A. -/
theorem c5_witness :
    Effect.send 2 (OutMsg.publishMsg "t" []) ∈ (publish stPub "t" [] (some "A")).2 ∧
    ¬ Effect.send 1 (OutMsg.publishMsg "t" []) ∈ (publish stPub "t" [] (some "A")).2 :=
  ⟨((c5_publish_exact_recipients stPub "t" [] (some "A")).1 2).mpr
      ⟨by decide, by decide, cdFixture "B" true, by decide, by decide⟩,
   (c5_publish_exact_recipients stPub "t" [] (some "A")).2.2.2 1 (cdFixture "A" true)
      (by decide) rfl⟩

/-! Claim C6. -/

/-- C6 counterexample: stream id s1 is already active and owned by client
A in stStream, yet a stream_start for s1 from client B is not rejected:
the session is silently replaced (owner becomes B) and the start is
acknowledged as a success.  This refutes the claim that starting a
duplicate stream id is an error. -/
theorem c6_counterexample :
    alookup "s1" stStream.streams =
      some { clientId := "A", ws := 1, streamType := "audio", startedAt := 0 } ∧
    alookup "s1" (handleClientMessage cfgOpen stStream 2
        (ClientMessage.streamStart "s1" "video") 7).1.streams =
      some { clientId := "B", ws := 2, streamType := "video", startedAt := 7 } ∧
    Effect.send 2 (OutMsg.streamStartResponse "s1") ∈
      (handleClientMessage cfgOpen stStream 2
        (ClientMessage.streamStart "s1" "video") 7).2 := by
  decide

/-- C6 (amended): when streaming is enabled, a stream_start from a
registered connection always stores the session under its stream id —
replacing any existing session with that id — and acknowledges success;
a duplicate id is not treated as an error. -/
theorem c6_stream_start_overwrites (cfg : Config) (st : ServerState) (ws : Nat)
    (cd : ClientData) (sid stype : String) (now : Nat)
    (hstream : cfg.enableStreaming = true)
    (hcd : alookup ws st.clients = some cd) :
    alookup sid (handleClientMessage cfg st ws
        (ClientMessage.streamStart sid stype) now).1.streams =
      some { clientId := cd.id, ws := ws, streamType := stype, startedAt := now } ∧
    Effect.send ws (OutMsg.streamStartResponse sid) ∈
      (handleClientMessage cfg st ws (ClientMessage.streamStart sid stype) now).2 := by
  have hc : ¬ cfg.enableStreaming = false := by simp [hstream]
  rw [handleClientMessage_some cfg st ws (ClientMessage.streamStart sid stype) now cd hcd]
  show alookup sid (handleStreamStart cfg (updateClient st ws (bumpCounters cd now)) ws
      (bumpCounters cd now) sid stype now).1.streams = _ ∧
    Effect.send ws (OutMsg.streamStartResponse sid) ∈
      (handleStreamStart cfg (updateClient st ws (bumpCounters cd now)) ws
        (bumpCounters cd now) sid stype now).2
  unfold handleStreamStart
  rw [if_neg hc]
  exact ⟨alookup_setKey_self sid _ _, by simp⟩

/-- C6 witness: the concrete replacement of session s1 evaluated through
the amended theorem. -/
theorem c6_witness :
    alookup "s1" (handleClientMessage cfgOpen stStream 2
        (ClientMessage.streamStart "s1" "video") 7).1.streams =
      some { clientId := "B", ws := 2, streamType := "video", startedAt := 7 } :=
  (c6_stream_start_overwrites cfgOpen stStream 2 (cdFixture "B" true) "s1" "video" 7
    (by decide) (by decide)).1

/-! Claim C7. -/

/-- C7: disconnecting a registered connection removes its socket from the
subscriber set of every topic (given the data-model invariant that the
index only lists it under topics in its own subscription set), leaves no
empty topic entry behind, deletes every stream session owned by that
connection, after which sendStreamData on any such stream id reports
failure, and a subsequent publish to any topic never sends to the removed
socket. -/
theorem c7_disconnect_cascades (st : ServerState) (ws : Nat) (cd : ClientData)
    (hcd : alookup ws st.clients = some cd)
    (hwf : ∀ t s, alookup t st.subscriptions = some s → ws ∈ s → t ∈ cd.subscriptions)
    (hne : ∀ t s, alookup t st.subscriptions = some s → ¬ s = [])
    (hkeys : (st.streams.map Prod.fst).Nodup) :
    (∀ t, ¬ ws ∈ subscribersOf (handleClientDisconnection st ws cd).1 t) ∧
    (∀ t s, alookup t (handleClientDisconnection st ws cd).1.subscriptions = some s →
        ¬ s = []) ∧
    (∀ sid s', alookup sid (handleClientDisconnection st ws cd).1.streams = some s' →
        ¬ s'.clientId = cd.id) ∧
    (∀ sid s, alookup sid st.streams = some s → s.clientId = cd.id →
        alookup sid (handleClientDisconnection st ws cd).1.streams = none ∧
        (sendStreamData (handleClientDisconnection st ws cd).1 sid none).1 = false) ∧
    (∀ t payload excl, ¬ Effect.send ws (OutMsg.publishMsg t payload) ∈
        (publish (handleClientDisconnection st ws cd).1 t payload excl).2) := by
  have hsub : ∀ t, alookup t (handleClientDisconnection st ws cd).1.subscriptions =
      if t ∈ cd.subscriptions then (alookup t st.subscriptions).bind (shrinkSubs ws)
      else alookup t st.subscriptions :=
    fun t => alookup_cleanupTopics ws cd.subscriptions st.subscriptions t
  have h1 : ∀ t, ¬ ws ∈ subscribersOf (handleClientDisconnection st ws cd).1 t := by
    intro t hmem
    rw [subscribersOf, hsub t] at hmem
    by_cases ht : t ∈ cd.subscriptions
    · rw [if_pos ht] at hmem
      cases hs : alookup t st.subscriptions with
      | none => rw [hs] at hmem; simp at hmem
      | some s =>
        rw [hs] at hmem
        have hmem' : ws ∈ (shrinkSubs ws s).getD [] := hmem
        unfold shrinkSubs at hmem'
        by_cases hz : removeAll ws s = []
        · rw [if_pos hz] at hmem'
          simp at hmem'
        · rw [if_neg hz] at hmem'
          exact not_mem_removeAll ws s (by simpa using hmem')
    · rw [if_neg ht] at hmem
      cases hs : alookup t st.subscriptions with
      | none => rw [hs] at hmem; simp at hmem
      | some s =>
        rw [hs] at hmem
        exact ht (hwf t s hs (by simpa using hmem))
  have h2 : ∀ t s, alookup t (handleClientDisconnection st ws cd).1.subscriptions =
      some s → ¬ s = [] := by
    intro t s hts
    rw [hsub t] at hts
    by_cases ht : t ∈ cd.subscriptions
    · rw [if_pos ht] at hts
      cases hs : alookup t st.subscriptions with
      | none => rw [hs] at hts; simp at hts
      | some s0 =>
        rw [hs] at hts
        have hts' : shrinkSubs ws s0 = some s := hts
        unfold shrinkSubs at hts'
        by_cases hz : removeAll ws s0 = []
        · rw [if_pos hz] at hts'
          simp at hts'
        · rw [if_neg hz] at hts'
          intro hnil
          rw [hnil] at hts'
          injection hts' with hts'
          exact hz hts'
    · rw [if_neg ht] at hts
      exact hne t s hts
  have h3 : ∀ sid s', alookup sid (handleClientDisconnection st ws cd).1.streams =
      some s' → ¬ s'.clientId = cd.id := by
    intro sid s' hs'
    have hs2 : alookup sid
        (st.streams.filter (fun p => decide (¬ p.2.clientId = cd.id))) = some s' := hs'
    have := alookup_filter_imp sid s' _ st.streams hs2
    simpa using this
  have h4 : ∀ sid s, alookup sid st.streams = some s → s.clientId = cd.id →
      alookup sid (handleClientDisconnection st ws cd).1.streams = none ∧
      (sendStreamData (handleClientDisconnection st ws cd).1 sid none).1 = false := by
    intro sid s hsid howner
    have hnone : alookup sid
        (st.streams.filter (fun p => decide (¬ p.2.clientId = cd.id))) = none := by
      apply alookup_filter_none_of_nodup sid s _ st.streams hkeys hsid
      simp [howner]
    refine ⟨hnone, ?_⟩
    unfold sendStreamData
    have hn2 : alookup sid (handleClientDisconnection st ws cd).1.streams = none := hnone
    rw [hn2]
  have h5 : ∀ t payload excl, ¬ Effect.send ws (OutMsg.publishMsg t payload) ∈
      (publish (handleClientDisconnection st ws cd).1 t payload excl).2 := by
    intro t payload excl hmem
    exact h1 t ((mem_publish_iff _ t payload excl ws).mp hmem).1
  exact ⟨h1, h2, h3, h4, h5⟩

/-- C7 witness: disconnecting client A of stTear (owner of streams s1 and
s2 and subscriber of topic t) leaves no topic listing socket 1 and no
stream owned by A. -/
theorem c7_witness :
    (∀ t, ¬ 1 ∈ subscribersOf (handleClientDisconnection stTear 1 cdA).1 t) ∧
    (∀ sid s', alookup sid (handleClientDisconnection stTear 1 cdA).1.streams = some s' →
        ¬ s'.clientId = cdA.id) := by
  have hwf : ∀ t s, alookup t stTear.subscriptions = some s → 1 ∈ s →
      t ∈ cdA.subscriptions := by
    intro t s hts hmem
    by_cases ht : "t" = t
    · subst ht
      decide
    · simp [stTear, alookup, ht] at hts
  have hne : ∀ t s, alookup t stTear.subscriptions = some s → ¬ s = [] := by
    intro t s hts hc
    subst hc
    by_cases ht : "t" = t
    · subst ht
      simp [stTear, alookup] at hts
    · simp [stTear, alookup, ht] at hts
  have h := c7_disconnect_cascades stTear 1 cdA (by decide) hwf hne (by decide)
  exact ⟨h.1, h.2.2.1⟩

/-! Claim C8. -/

/-- C8: with validation enabled, a data message from a registered
connection that passes the authentication gate but whose payload fails
the category-specific check is answered with the validation-failure
acknowledgment, and no persistence-store insert occurs. -/
theorem c8_validation_blocks_persistence (cfg : Config) (st : ServerState) (ws : Nat)
    (cd : ClientData) (data : List (String × FieldVal)) (dt : Option String)
    (rid : Option String) (now : Nat)
    (hcd : alookup ws st.clients = some cd)
    (hval : cfg.enableDataValidation = true)
    (hauthok : ¬ (cfg.enableAuthentication = true ∧ cd.isAuthenticated = false))
    (hfail : validateData cfg data (dt.getD "general") = false) :
    (handleClientMessage cfg st ws (ClientMessage.dataMsg data dt rid) now).2 =
      [Effect.send ws (OutMsg.dataResponse false (some "Data validation failed") rid)] ∧
    ∀ tbl rec, ¬ Effect.dbInsert tbl rec ∈
        (handleClientMessage cfg st ws (ClientMessage.dataMsg data dt rid) now).2 := by
  have hauthok' : ¬ (cfg.enableAuthentication = true ∧
      (bumpCounters cd now).isAuthenticated = false) := by
    simpa [bumpCounters] using hauthok
  have heff : (handleClientMessage cfg st ws (ClientMessage.dataMsg data dt rid) now).2 =
      [Effect.send ws (OutMsg.dataResponse false (some "Data validation failed") rid)] := by
    rw [handleClientMessage_some cfg st ws (ClientMessage.dataMsg data dt rid) now cd hcd]
    show (handleDataMessage cfg (updateClient st ws (bumpCounters cd now)) ws
        (bumpCounters cd now) data dt rid now).2 = _
    unfold handleDataMessage
    rw [if_neg hauthok', if_pos ⟨hval, hfail⟩]
  refine ⟨heff, ?_⟩
  rw [heff]
  intro tbl rec h
  simp at h

/-- C8 witness: with required field temperature configured, an ingest
payload containing only humidity is answered with the validation failure
and produces no insert effect. -/
theorem c8_witness :
    (handleClientMessage cfgVal stHb 1
        (ClientMessage.dataMsg [("humidity", FieldVal.vNum 40)] none none) 5).2 =
      [Effect.send 1 (OutMsg.dataResponse false (some "Data validation failed") none)] :=
  (c8_validation_blocks_persistence cfgVal stHb 1 (cdFixture "A" true)
    [("humidity", FieldVal.vNum 40)] none none 5 (by decide) (by decide)
    (by decide) (by decide)).1

/-! Claim C9. -/

/-- C9 counterexample: the client of stHb last acknowledged liveness at
instant 0 and receives an application data message at instant 60001 (one
message within the last 30000 ms interval), yet the heartbeat monitor —
which consults lastHeartbeat, not lastDataTime — still force-closes the
connection at 60001 because 60001 - 0 exceeds twice the interval.  This
refutes the claim that every inbound application message updates the
timestamp the monitor consults, and that one-message-per-interval traffic
can never be force-closed. -/
theorem c9_counterexample :
    alookup 1 (handleClientMessage cfgOpen stHb 1
        (ClientMessage.dataMsg [("humidity", FieldVal.vNum 40)] none none) 60001).1.clients =
      some cdHbAfter ∧
    cdHbAfter.lastHeartbeat = 0 ∧
    cdHbAfter.lastDataTime = some 60001 ∧
    heartbeatTick cfgOpen (handleClientMessage cfgOpen stHb 1
        (ClientMessage.dataMsg [("humidity", FieldVal.vNum 40)] none none) 60001).1 1
        cdHbAfter 60001 =
      [Effect.closeSocket 1 1000 "Heartbeat timeout"] := by
  decide

/-- C9 (amended): only heartbeat-type messages and transport pong frames
refresh lastHeartbeat, the timestamp the per-connection monitor consults;
a data (application) message refreshes only lastDataTime and leaves
lastHeartbeat unchanged; and the monitor force-closes an open connection
exactly when the elapsed time since lastHeartbeat exceeds twice the
heartbeat interval, sending a ping probe otherwise. -/
theorem c9_heartbeat_timestamp_sources (cfg : Config) (st : ServerState) (ws : Nat)
    (cd : ClientData) (now : Nat) (data : List (String × FieldVal))
    (dt rid : Option String)
    (hcd : alookup ws st.clients = some cd) :
    ((alookup ws (handleClientMessage cfg st ws ClientMessage.heartbeat now).1.clients).map
        (fun c => c.lastHeartbeat) = some now) ∧
    ((alookup ws (pongReceived st ws now).clients).map
        (fun c => c.lastHeartbeat) = some now) ∧
    ((alookup ws (handleClientMessage cfg st ws
        (ClientMessage.dataMsg data dt rid) now).1.clients).map
        (fun c => c.lastHeartbeat) = some cd.lastHeartbeat) ∧
    (ws ∈ st.openSockets → cfg.heartbeatInterval * 2 < now - cd.lastHeartbeat →
        heartbeatTick cfg st ws cd now = [Effect.closeSocket ws 1000 "Heartbeat timeout"]) ∧
    (ws ∈ st.openSockets → ¬ cfg.heartbeatInterval * 2 < now - cd.lastHeartbeat →
        heartbeatTick cfg st ws cd now = [Effect.wsPing ws]) := by
  have hbump : alookup ws (updateClient st ws (bumpCounters cd now)).clients =
      some (bumpCounters cd now) := alookup_updateClient_self st ws cd _ hcd
  refine ⟨?_, ?_, ?_, ?_, ?_⟩
  · rw [handleClientMessage_some cfg st ws ClientMessage.heartbeat now cd hcd]
    show (alookup ws (handleHeartbeat (updateClient st ws (bumpCounters cd now)) ws
        (bumpCounters cd now) now).1.clients).map (fun c => c.lastHeartbeat) = some now
    unfold handleHeartbeat
    rw [alookup_updateClient_self (updateClient st ws (bumpCounters cd now)) ws
        (bumpCounters cd now) _ hbump]
    rfl
  · unfold pongReceived
    rw [hcd]
    rw [alookup_updateClient_self st ws cd _ hcd]
    rfl
  · rw [handleClientMessage_some cfg st ws (ClientMessage.dataMsg data dt rid) now cd hcd]
    show (alookup ws (handleDataMessage cfg (updateClient st ws (bumpCounters cd now)) ws
        (bumpCounters cd now) data dt rid now).1.clients).map
        (fun c => c.lastHeartbeat) = some cd.lastHeartbeat
    rw [handleDataMessage_state_eq, hbump]
    rfl
  · intro hopen hlate
    unfold heartbeatTick
    rw [if_pos hopen, if_pos hlate]
  · intro hopen hfresh
    unfold heartbeatTick
    rw [if_pos hopen, if_neg hfresh]

/-- C9 witness: a heartbeat message at instant 100 refreshes the
monitored timestamp of stHb's client, and the tick at instant 60001
against the stale timestamp 0 force-closes the connection. -/
theorem c9_witness :
    ((alookup 1 (handleClientMessage cfgOpen stHb 1 ClientMessage.heartbeat 100).1.clients).map
        (fun c => c.lastHeartbeat) = some 100) ∧
    heartbeatTick cfgOpen stHb 1 (cdFixture "A" true) 60001 =
      [Effect.closeSocket 1 1000 "Heartbeat timeout"] :=
  ⟨(c9_heartbeat_timestamp_sources cfgOpen stHb 1 (cdFixture "A" true) 100 [] none none
      (by decide)).1,
   (c9_heartbeat_timestamp_sources cfgOpen stHb 1 (cdFixture "A" true) 60001 [] none none
      (by decide)).2.2.2.1 (by decide) (by decide)⟩

/-! Claim C10. -/

/-- C10 counterexample: processing a disconnection event for a socket
that is no longer in the registry (the situation after stop() has cleared
the registry while the torn-down sockets' close events are still queued)
decrements the counter without removing any entry, driving the counter to
-1 while the registry holds 0 entries.  This refutes the claim that no
operation changes the counter without the registry. -/
theorem c10_counterexample :
    (handleClientDisconnection stEmptyStopped 5 (cdFixture "ghost" true)).1.connectionCount
      = -1 ∧
    (handleClientDisconnection stEmptyStopped 5
        (cdFixture "ghost" true)).1.clients.length = 0 := by
  decide

/-- C10 (amended): the equality of the connection counter and the
registry size is preserved by accepting a fresh socket, by a
disconnection whose socket is registered, and by stop (which resets both
to empty and zero); but a disconnection processed for an unregistered
socket decrements the counter while leaving the registry unchanged, so
the equality only holds along traces in which every processed
disconnection targets a registered socket. -/
theorem c10_counter_matches_registry (cfg : Config) (st : ServerState) (ws : Nat)
    (cd : ClientData) (cid ip : String) (now : Nat)
    (hinv : st.connectionCount = (st.clients.length : Int))
    (hkeys : (st.clients.map Prod.fst).Nodup) :
    (alookup ws st.clients = none →
        (handleNewConnection cfg st ws cid ip now).1.connectionCount =
          ((handleNewConnection cfg st ws cid ip now).1.clients.length : Int)) ∧
    (alookup ws st.clients = some cd →
        (handleClientDisconnection st ws cd).1.connectionCount =
          ((handleClientDisconnection st ws cd).1.clients.length : Int)) ∧
    ((stop st).1.connectionCount = ((stop st).1.clients.length : Int)) ∧
    (alookup ws st.clients = none →
        (handleClientDisconnection st ws cd).1.connectionCount =
          st.connectionCount - 1 ∧
        (handleClientDisconnection st ws cd).1.clients.length = st.clients.length) := by
  refine ⟨?_, ?_, ?_, ?_⟩
  · intro hnone
    unfold handleNewConnection
    split
    · exact hinv
    · show st.connectionCount + 1 =
        ((setKey ws (freshClient cfg cid ip now) st.clients).length : Int)
      rw [setKey_of_alookup_none ws _ st.clients hnone, List.length_append]
      simp only [List.length_singleton]
      rw [hinv]
      push_cast
      ring
  · intro hsome
    show st.connectionCount - 1 = ((eraseKey ws st.clients).length : Int)
    have h := length_eraseKey_nodup ws cd st.clients hkeys hsome
    rw [hinv]
    omega
  · unfold stop
    split
    · exact hinv
    · rfl
  · intro hnone
    refine ⟨rfl, ?_⟩
    show (eraseKey ws st.clients).length = st.clients.length
    rw [eraseKey_of_alookup_none ws st.clients hnone]

/-- C10 witness: the accept, registered-disconnect and stop cases of the
amended invariant evaluated on the concrete one-client server stOne. -/
theorem c10_witness :
    (handleClientDisconnection stOne 1 (cdFixture "client_1" false)).1.connectionCount =
      (((handleClientDisconnection stOne 1 (cdFixture "client_1" false)).1.clients.length
        : Int)) ∧
    (handleNewConnection cfgOpen stOne 2 "client_2" "127.0.0.1" 9).1.connectionCount =
      (((handleNewConnection cfgOpen stOne 2 "client_2" "127.0.0.1" 9).1.clients.length
        : Int)) :=
  ⟨(c10_counter_matches_registry cfgOpen stOne 1 (cdFixture "client_1" false)
      "client_2" "127.0.0.1" 9 (by decide) (by decide)).2.1 (by decide),
   (c10_counter_matches_registry cfgOpen stOne 2 (cdFixture "client_1" false)
      "client_2" "127.0.0.1" 9 (by decide) (by decide)).1 (by decide)⟩

end WSHandler
